import Mathlib

/-!
Verification of the image-captioning web backend (`app.py`, `model_loader.py`).

The HTTP layer, PIL, torch and transformers are external libraries; their
behavior is abstracted into oracle functions (an `Env` record and a `decode`
function), while every piece of logic written in this repository — extension
validation, the branching of the upload handler, the lazy model/device singletons,
the generation-parameter choices and the caption cleanup — is embedded
faithfully below and proved against the claims of the specification.
-/

/-- Abstract PIL image: the handler only ever inspects its color `mode`. -/
structure PILImage where
  mode : String
deriving DecidableEq

/-- The PIL `Image.convert(m)` operation: produces an image whose mode is `m`. -/
def PILImage.convert (_img : PILImage) (m : String) : PILImage :=
  { mode := m }

/-- `ALLOWED_EXTENSIONS` from `app.py`: the set {"png", "jpg", "jpeg", "gif", "bmp", "webp"}. -/
def ALLOWED_EXTENSIONS : List String := ["png", "jpg", "jpeg", "gif", "bmp", "webp"]

/-- Python `s.rsplit(sep, 1)[1]`: the part of `s` after the last occurrence
of `sep`, or `none` when `sep` does not occur (in which case the Python indexing `[1]`
would fail, but `allowed_file` short-circuits before reaching it). -/
def rsplitLast (sep : Char) (s : List Char) : Option (List Char) :=
  let rev := s.reverse
  match rev.dropWhile (fun c => c ≠ sep) with
  | [] => none
  | _ :: _ => some ((rev.takeWhile (fun c => c ≠ sep)).reverse)

/-- Python `str.lower`, code point by code point. -/
def lowerStr (s : String) : String := String.mk (s.data.map Char.toLower)

/-- Python `str.startswith`. -/
def startsWithStr (s pre : String) : Bool := pre.data.isPrefixOf s.data

/-- Python slicing `s[n:]`, counted in code points. -/
def dropStr (s : String) (n : Nat) : String := String.mk (s.data.drop n)

/-- Python `str.strip`: remove leading and trailing whitespace. -/
def stripStr (s : String) : String :=
  String.mk (((s.data.dropWhile Char.isWhitespace).reverse.dropWhile Char.isWhitespace).reverse)

/-- Python `len` of a string, in code points. -/
def lenStr (s : String) : Nat := s.data.length

/-- `allowed_file` from `app.py`:
`'.' in filename and filename.rsplit('.', 1)[1].lower() in ALLOWED_EXTENSIONS`. -/
def allowed_file (filename : String) : Bool :=
  filename.data.contains '.' &&
    (match rsplitLast '.' filename.data with
     | some ext => ALLOWED_EXTENSIONS.contains (lowerStr (String.mk ext))
     | none => false)

/-- Spec-side reading of "the substring after the last `'.'`": scan the string
left to right, restarting the collected suffix at every dot. -/
def extAfterLastDot (s : List Char) : Option (List Char) :=
  s.foldl (fun acc c => if c = '.' then some [] else acc.map (fun l => l ++ [c])) none

theorem rsplitLast_append (sep : Char) (s : List Char) (c : Char) :
    rsplitLast sep (s ++ [c]) =
      if c = sep then some [] else (rsplitLast sep s).map (fun l => l ++ [c]) := by
  unfold rsplitLast
  simp only [List.reverse_append, List.reverse_cons, List.reverse_nil, List.nil_append,
    List.cons_append, List.dropWhile_cons, List.takeWhile_cons]
  by_cases h : c = sep
  · simp [h]
  · cases hd : s.reverse.dropWhile (fun x => x ≠ sep) with
    | nil => simp [hd, h]
    | cons a t => simp [hd, h]

theorem extAfterLastDot_append (s : List Char) (c : Char) :
    extAfterLastDot (s ++ [c]) =
      if c = '.' then some [] else (extAfterLastDot s).map (fun l => l ++ [c]) := by
  unfold extAfterLastDot
  rw [List.foldl_append]
  rfl

/-- The right-split computation of the source agrees with the spec-side
"substring after the last dot" scan. -/
theorem rsplitLast_eq_extAfterLastDot (s : List Char) :
    rsplitLast '.' s = extAfterLastDot s := by
  induction s using List.reverseRecOn with
  | nil => rfl
  | append_singleton s c ih =>
    rw [rsplitLast_append, extAfterLastDot_append, ih]

/-! ## `model_loader.py`: module globals, device and model singletons -/

/-- The module-global mutable state of `model_loader.py`:
`_model`, `_processor` and `_device`, all initially `None`.
Model and processor handles are abstracted as natural-number identifiers. -/
structure MLState where
  _model : Option Nat
  _processor : Option Nat
  _device : Option String
deriving DecidableEq

/-- The initial module state: `_model = _processor = _device = None`. -/
def initState : MLState :=
  { _model := none, _processor := none, _device := none }

/-- Keyword arguments the code passes to `model.generate`; `none` in an
optional field means the keyword is not passed at all. `repetition_penalty`
is a rational since the code only ever passes the literal `1.2`. -/
structure GenParams where
  max_length : Nat
  num_beams : Nat
  early_stopping : Bool
  do_sample : Option Bool
  repetition_penalty : Option ℚ
deriving DecidableEq

/-- Oracle for the external libraries (torch / transformers): outcomes of
`from_pretrained`, tensor movement, preprocessing, generation and decoding.
Handles and preprocessed inputs are abstract `Nat` identifiers. -/
structure Env where
  cudaAvailable : Bool
  procLoad : Except Unit Nat
  modelLoad : Except Unit Nat
  toDevice : Nat → String → Nat
  halfModel : Nat → Nat
  evalMode : Nat → Nat
  process : Nat → PILImage → Option String → Nat
  inputsTo : Nat → String → Nat
  inputsHalf : Nat → Nat
  generate : Nat → Nat → GenParams → Except Unit (List Nat)
  decodeTok : Nat → List Nat → String

/-- `get_device` from `model_loader.py`: on first call cache
`"cuda"` or `"cpu"` according to `torch.cuda.is_available()`; afterwards
return the cached value. -/
def get_device (st : MLState) (cudaAvailable : Bool) : String × MLState :=
  match st._device with
  | some d => (d, st)
  | none =>
    let d := if cudaAvailable then "cuda" else "cpu"
    (d, { st with _device := some d })

/-- `get_model` from `model_loader.py`: when `_model is None or _processor is
None`, load the processor, then the model, move the model to the selected
device, halve precision on cuda, and cache both; otherwise return the cached
pair. A failing load re-raises (the `except` clause logs and `raise`s), with
`_processor` already assigned when only the model load failed. -/
def get_model (st : MLState) (env : Env) : Except Unit (Nat × Nat) × MLState :=
  if st._model.isNone || st._processor.isNone then
    match env.procLoad with
    | .error e => (.error e, st)
    | .ok p =>
      match env.modelLoad with
      | .error e => (.error e, { st with _processor := some p })
      | .ok m0 =>
        let st1 := { st with _processor := some p, _model := some m0 }
        let (device, st2) := get_device st1 env.cudaAvailable
        let m1 := env.toDevice m0 device
        let m2 := if device = "cuda" then env.halfModel m1 else m1
        let m3 := env.evalMode m2
        (.ok (m3, p), { st2 with _model := some m3 })
  else
    match st._model, st._processor with
    | some m, some p => (.ok (m, p), st)
    | _, _ => (.error (), st)

/-- `generate_caption` from `model_loader.py`: preprocess, call
`model.generate(max_length, num_beams, early_stopping=True)`, decode.
Exceptions from any step are re-raised. -/
def generate_caption (image : PILImage) (st : MLState) (env : Env)
    (max_length : Nat := 50) (num_beams : Nat := 4) : Except Unit String × MLState :=
  match get_model st env with
  | (.error e, st1) => (.error e, st1)
  | (.ok (model, processor), st1) =>
    let (device, st2) := get_device st1 env.cudaAvailable
    let inputs := env.inputsTo (env.process processor image none) device
    match env.generate model inputs
        { max_length := max_length, num_beams := num_beams,
          early_stopping := true, do_sample := none, repetition_penalty := none } with
    | .error e => (.error e, st2)
    | .ok out => (.ok (env.decodeTok processor out), st2)

/-- The prompt string of `generate_detailed_caption`. -/
def detailedPromptText : String := "a detailed description of"

/-- The cleanup step of `generate_detailed_caption`:
`if caption.lower().startswith("a detailed description of"):
   caption = caption[len("a detailed description of"):].strip()`. -/
def cleanupDetailedCaption (caption : String) : String :=
  if startsWithStr (lowerStr caption) detailedPromptText then
    stripStr (dropStr caption (lenStr detailedPromptText))
  else
    caption

/-- `generate_detailed_caption` from `model_loader.py`: preprocess with the
prompt, half-cast float inputs on cuda, call `model.generate(max_length=70,
num_beams=4, early_stopping=True, do_sample=False, repetition_penalty=1.2)`,
decode, and strip a leading prompt occurrence. -/
def generate_detailed_caption (image : PILImage) (st : MLState) (env : Env) :
    Except Unit String × MLState :=
  match get_model st env with
  | (.error e, st1) => (.error e, st1)
  | (.ok (model, processor), st1) =>
    let (device, st2) := get_device st1 env.cudaAvailable
    let inputs0 := env.inputsTo (env.process processor image (some detailedPromptText)) device
    let inputs := if device = "cuda" then env.inputsHalf inputs0 else inputs0
    match env.generate model inputs
        { max_length := 70, num_beams := 4, early_stopping := true,
          do_sample := some false, repetition_penalty := some (6/5 : ℚ) } with
    | .error e => (.error e, st2)
    | .ok out => (.ok (cleanupDetailedCaption (env.decodeTok processor out)), st2)

/-! ## `app.py`: the `/upload` request handler -/

/-- The parts of a POST request to `/upload` the handler inspects:
whether a part named `image` is present in `request.files`, its filename and
raw bytes, the optional `type` form field, and the byte length of the body. -/
structure UploadRequest where
  hasImagePart : Bool
  filename : String
  imageBytes : List Nat
  formType : Option String
  contentLength : Nat

/-- JSON bodies the handler produces: an error object or
a success object with caption and filename fields. -/
inductive JsonBody where
  | errorMsg (msg : String)
  | success (caption : String) (filename : String)
deriving DecidableEq

/-- An HTTP response: status code and JSON body. -/
abbrev HttpResponse := Nat × JsonBody

/-- The `Invalid file type` message of `app.py` (the set iteration order of
`ALLOWED_EXTENSIONS` in the f-string is modelled by the order of the literal). -/
def invalidTypeMsg : String :=
  "Invalid file type. Allowed types: " ++ String.intercalate ", " ALLOWED_EXTENSIONS

/-- The `Convert to RGB if necessary` step of `upload_image`:
`if image.mode != "RGB": image = image.convert("RGB")`. -/
def toRGB (decoded : PILImage) : PILImage :=
  if decoded.mode ≠ "RGB" then decoded.convert "RGB" else decoded

/-- `upload_image` from `app.py`: presence, filename, extension and decode
checks, caption-mode dispatch on the `type` form field, and the
try/except-to-status mapping. `decode` is the oracle for
`Image.open(io.BytesIO(image_bytes))`; module state is threaded through the
captioning calls. -/
def upload_image (req : UploadRequest) (decode : List Nat → Except Unit PILImage)
    (st : MLState) (env : Env) : HttpResponse × MLState :=
  if req.hasImagePart = false then
    ((400, .errorMsg "No image file provided"), st)
  else if req.filename = "" then
    ((400, .errorMsg "No file selected"), st)
  else if allowed_file req.filename = false then
    ((400, .errorMsg invalidTypeMsg), st)
  else
    match decode req.imageBytes with
    | .error _ => ((400, .errorMsg "Invalid or corrupted image file"), st)
    | .ok decoded =>
      let image := toRGB decoded
      let caption_type := req.formType.getD "default"
      match (if caption_type = "detailed" then generate_detailed_caption image st env
             else generate_caption image st env) with
      | (.error _, st1) => ((500, .errorMsg "Failed to generate caption. Please try again."), st1)
      | (.ok caption, st1) => ((200, .success caption req.filename), st1)

/-- The `MAX_CONTENT_LENGTH` configuration value from `app.py`: `16 * 1024 * 1024`. -/
def MAX_CONTENT_LENGTH : Nat := 16 * 1024 * 1024

/-- The registered `@app.errorhandler(413)` response from `app.py`. -/
def request_entity_too_large : HttpResponse :=
  (413, .errorMsg "File too large. Maximum size is 16MB")

/-- Modelled from the spec: the size-cap enforcement of the web framework is not in
the sources of this repository — "expose an HTTP endpoint accepting multipart image
uploads under a size cap". A request whose body exceeds the configured
`MAX_CONTENT_LENGTH` is rejected with 413 (handled by the registered
`request_entity_too_large` handler) before the view runs; otherwise the view
`upload_image` runs. -/
def handle_upload (req : UploadRequest) (decode : List Nat → Except Unit PILImage)
    (st : MLState) (env : Env) : HttpResponse × MLState :=
  if req.contentLength > MAX_CONTENT_LENGTH then
    (request_entity_too_large, st)
  else
    upload_image req decode st env

/-! ## Concrete fixtures used by witness and counterexample theorems -/

/-- A concrete library environment: loads succeed (processor handle 0, model
handle 1), tensor operations are identities, generation succeeds, and decoding
always yields `decoded`. -/
def constEnv (decoded : String) : Env :=
  { cudaAvailable := false, procLoad := .ok 0, modelLoad := .ok 1,
    toDevice := fun m _ => m, halfModel := fun m => m, evalMode := fun m => m,
    process := fun _ _ _ => 0, inputsTo := fun i _ => i, inputsHalf := fun i => i,
    generate := fun _ _ _ => .ok [0], decodeTok := fun _ _ => decoded }

/-- A library environment whose generation call raises. -/
def failGenEnv : Env :=
  { constEnv "unused" with generate := fun _ _ _ => .error () }

/-- A decoder that succeeds with an RGB image. -/
def okDecode : List Nat → Except Unit PILImage := fun _ => .ok { mode := "RGB" }

/-- A decoder that raises on any input. -/
def errDecode : List Nat → Except Unit PILImage := fun _ => .error ()

/-- A well-formed upload request. -/
def sampleReq : UploadRequest :=
  { hasImagePart := true, filename := "photo.png", imageBytes := [],
    formType := none, contentLength := 0 }

/-- The module state after a successful first load under `constEnv`. -/
def loadedState : MLState :=
  { _model := some 1, _processor := some 0, _device := some "cpu" }

/-! ## Claim theorems -/

/-- C10: a POST to `/upload` without an `image` file part yields HTTP 400 with
error `No image file provided`; a part with empty filename yields HTTP 400
with error `No file selected`; in both cases the module state is unchanged and
the result does not depend on the decoder or on the captioning environment,
so no captioning is attempted. -/
theorem upload_missing_file_responses (req : UploadRequest) :
    (req.hasImagePart = false →
      ∀ (decode : List Nat → Except Unit PILImage) (st : MLState) (env : Env),
        upload_image req decode st env = ((400, .errorMsg "No image file provided"), st)) ∧
    (req.hasImagePart = true → req.filename = "" →
      ∀ (decode : List Nat → Except Unit PILImage) (st : MLState) (env : Env),
        upload_image req decode st env = ((400, .errorMsg "No file selected"), st)) := by
  constructor
  · intro h decode st env
    simp [upload_image, h]
  · intro h1 h2 decode st env
    simp [upload_image, h1, h2]

/-- Witness for C10 at concrete requests. -/
theorem upload_missing_file_responses_witness :
    upload_image { sampleReq with hasImagePart := false } okDecode initState (constEnv "c") =
      ((400, .errorMsg "No image file provided"), initState) ∧
    upload_image { sampleReq with filename := "" } okDecode initState (constEnv "c") =
      ((400, .errorMsg "No file selected"), initState) :=
  ⟨(upload_missing_file_responses _).1 rfl okDecode initState (constEnv "c"),
   (upload_missing_file_responses _).2 rfl rfl okDecode initState (constEnv "c")⟩

/-- C1: for a request that passes the presence, filename and extension checks,
a decode failure yields HTTP 400 with error `Invalid or corrupted image file`,
and a captioning failure after a successful decode yields HTTP 500 with error
`Failed to generate caption. Please try again.` — never the other way
around. -/
theorem upload_error_mapping
    (req : UploadRequest) (decode : List Nat → Except Unit PILImage)
    (st : MLState) (env : Env)
    (hpart : req.hasImagePart = true) (hname : req.filename ≠ "")
    (hext : allowed_file req.filename = true) :
    (∀ e, decode req.imageBytes = .error e →
       upload_image req decode st env =
         ((400, .errorMsg "Invalid or corrupted image file"), st)) ∧
    (∀ img, decode req.imageBytes = .ok img →
       ∀ e st1,
         (if req.formType.getD "default" = "detailed"
          then generate_detailed_caption (toRGB img) st env
          else generate_caption (toRGB img) st env) = (.error e, st1) →
         upload_image req decode st env =
           ((500, .errorMsg "Failed to generate caption. Please try again."), st1)) := by
  constructor
  · intro e he
    simp [upload_image, hpart, hname, hext, he]
  · intro img hi e st1 hg
    simp [upload_image, hpart, hname, hext, hi, hg]

/-- Witness for C1: a failing decoder at a concrete request. -/
theorem upload_error_mapping_witness :
    upload_image sampleReq errDecode initState (constEnv "c") =
      ((400, .errorMsg "Invalid or corrupted image file"), initState) :=
  (upload_error_mapping sampleReq errDecode initState (constEnv "c") rfl
    (by decide) (by decide)).1 () rfl

/-- C2: `allowed_file` accepts exactly the filenames that contain a dot and
whose substring after the last dot lowercases into the allowed-extension set,
and the handler returns the 400 `Invalid file type` error exactly when the
request has a file part with a nonempty filename that fails `allowed_file`. -/
theorem allowed_file_spec :
    (∀ filename : String,
       allowed_file filename = true ↔
         (filename.data.contains '.' = true ∧
          ∃ ext, extAfterLastDot filename.data = some ext ∧
            lowerStr (String.mk ext) ∈ ALLOWED_EXTENSIONS)) ∧
    (∀ (req : UploadRequest) (decode : List Nat → Except Unit PILImage)
       (st : MLState) (env : Env),
       (upload_image req decode st env).1 = (400, JsonBody.errorMsg invalidTypeMsg) ↔
         (req.hasImagePart = true ∧ req.filename ≠ "" ∧
          allowed_file req.filename = false)) := by
  constructor
  · intro filename
    unfold allowed_file
    rw [rsplitLast_eq_extAfterLastDot]
    cases h : extAfterLastDot filename.data with
    | none => simp [h]
    | some ext => simp [h, List.elem_iff]
  · intro req decode st env
    by_cases h1 : req.hasImagePart = false
    · simp only [upload_image, h1, invalidTypeMsg]
      simp
      decide
    · by_cases h2 : req.filename = ""
      · simp [upload_image, h1, h2, invalidTypeMsg]
        decide
      · by_cases h3 : allowed_file req.filename = false
        · simp [upload_image, h1, h2, h3, Bool.not_eq_false] at h1 ⊢
        · cases hd : decode req.imageBytes with
          | error e =>
            simp [upload_image, h1, h2, h3, hd, invalidTypeMsg]
            decide
          | ok img =>
            cases hg : (if req.formType.getD "default" = "detailed"
                        then generate_detailed_caption (toRGB img) st env
                        else generate_caption (toRGB img) st env) with
            | mk r st1 =>
              cases r with
              | error e => simp [upload_image, h1, h2, h3, hd, hg, invalidTypeMsg]
              | ok caption => simp [upload_image, h1, h2, h3, hd, hg, invalidTypeMsg]

/-- Witness for C2 at a concrete filename. -/
theorem allowed_file_spec_witness :
    allowed_file "photo.PNG" = true ↔
      ("photo.PNG".data.contains '.' = true ∧
       ∃ ext, extAfterLastDot "photo.PNG".data = some ext ∧
         lowerStr (String.mk ext) ∈ ALLOWED_EXTENSIONS) :=
  allowed_file_spec.1 "photo.PNG"

/-- C3: once `_model` and `_processor` are both set, every call to
`get_model` returns exactly the cached pair and leaves the state untouched,
whatever the library environment (so nothing is reloaded, replaced or
evicted); a successful load caches exactly the pair it returns; and the
captioning operations mutate the module state only through the `get_model` /
`get_device` singletons — on a loaded state their entire state effect is the
`get_device` device cache, which touches only `_device`. -/
theorem get_model_singleton
    (st : MLState) (m p : Nat)
    (hm : st._model = some m) (hp : st._processor = some p) :
    (∀ env : Env, get_model st env = (.ok (m, p), st)) ∧
    (∀ (st0 : MLState) (env : Env) (m0 p0 : Nat) (st1 : MLState),
       get_model st0 env = (.ok (m0, p0), st1) →
       st1._model = some m0 ∧ st1._processor = some p0) ∧
    (∀ (image : PILImage) (env : Env),
       (generate_caption image st env).2 = (get_device st env.cudaAvailable).2 ∧
       (generate_detailed_caption image st env).2 = (get_device st env.cudaAvailable).2) ∧
    (∀ b : Bool,
       (get_device st b).2._model = st._model ∧
       (get_device st b).2._processor = st._processor) ∧
    (∀ (req : UploadRequest) (decode : List Nat → Except Unit PILImage) (env : Env),
       (upload_image req decode st env).2 = st ∨
       (upload_image req decode st env).2 = (get_device st env.cudaAvailable).2) := by
  have hcached : ∀ env : Env, get_model st env = (.ok (m, p), st) := by
    intro env
    simp [get_model, hm, hp]
  have hload : ∀ (st0 : MLState) (env : Env) (m0 p0 : Nat) (st1 : MLState),
      get_model st0 env = (.ok (m0, p0), st1) →
      st1._model = some m0 ∧ st1._processor = some p0 := by
    intro st0 env m0 p0 st1 h
    unfold get_model at h
    by_cases hc : (st0._model.isNone || st0._processor.isNone) = true
    · rw [if_pos hc] at h
      cases hpl : env.procLoad with
      | error e => simp [hpl] at h
      | ok pp =>
        cases hml : env.modelLoad with
        | error e => simp [hpl, hml] at h
        | ok mm =>
          cases hdv : st0._device with
          | none =>
            simp [hpl, hml, get_device, hdv] at h
            obtain ⟨⟨h1, h2⟩, h3⟩ := h
            rw [← h3]
            exact ⟨by simp [h1], by simp [h2]⟩
          | some d =>
            simp [hpl, hml, get_device, hdv] at h
            obtain ⟨⟨h1, h2⟩, h3⟩ := h
            rw [← h3]
            exact ⟨by simp [h1], by simp [h2]⟩
    · rw [if_neg hc] at h
      simp only [Bool.or_eq_true, not_or, Bool.not_eq_true, Option.isNone_eq_false_iff,
        Option.isSome_iff_exists] at hc
      obtain ⟨⟨mv, hmv⟩, pv, hpv⟩ := hc
      rw [hmv, hpv] at h
      simp at h
      obtain ⟨⟨h1, h2⟩, h3⟩ := h
      rw [← h3]
      exact ⟨by rw [hmv, h1], by rw [hpv, h2]⟩
  have hdev : ∀ b : Bool,
      (get_device st b).2._model = st._model ∧
      (get_device st b).2._processor = st._processor := by
    intro b
    unfold get_device
    cases h : st._device <;> simp
  have hgen : ∀ (image : PILImage) (env : Env),
      (generate_caption image st env).2 = (get_device st env.cudaAvailable).2 ∧
      (generate_detailed_caption image st env).2 = (get_device st env.cudaAvailable).2 := by
    intro image env
    constructor
    · unfold generate_caption
      rw [hcached env]
      cases hgd : get_device st env.cudaAvailable with
      | mk d s2 =>
        simp [hgd]
        split <;> simp
    · unfold generate_detailed_caption
      rw [hcached env]
      cases hgd : get_device st env.cudaAvailable with
      | mk d s2 =>
        simp [hgd]
        split <;> simp
  refine ⟨hcached, hload, hgen, hdev, ?_⟩
  intro req decode env
  unfold upload_image
  by_cases h1 : req.hasImagePart = false
  · simp [h1]
  · by_cases h2 : req.filename = ""
    · simp [h1, h2]
    · by_cases h3 : allowed_file req.filename = false
      · simp [h1, h2, h3]
      · cases hd : decode req.imageBytes with
        | error e => simp [h1, h2, h3, hd]
        | ok img =>
          simp only [h1, h2, h3, hd]
          by_cases h4 : req.formType.getD "default" = "detailed"
          · right
            have hg := (hgen (toRGB img) env).2
            cases hG : generate_detailed_caption (toRGB img) st env with
            | mk r s1 =>
              rw [hG] at hg
              simp at hg
              cases r <;> simp [h4, hG, hg]
          · right
            have hg := (hgen (toRGB img) env).1
            cases hG : generate_caption (toRGB img) st env with
            | mk r s1 =>
              rw [hG] at hg
              simp at hg
              cases r <;> simp [h4, hG, hg]

/-- Witness for C3: a loaded state is returned unchanged. -/
theorem get_model_singleton_witness :
    get_model loadedState (constEnv "c") = (.ok (1, 0), loadedState) :=
  (get_model_singleton loadedState 1 0 rfl rfl).1 (constEnv "c")

/-- C4: for a valid upload the handler reads the `type` form field with
default value `default` and dispatches to `generate_detailed_caption` exactly
when that value is `detailed`; every other value, including unknown ones and
an absent field, dispatches to `generate_caption` — exactly two caption
tiers. -/
theorem upload_dispatch
    (req : UploadRequest) (decode : List Nat → Except Unit PILImage)
    (st : MLState) (env : Env) (img : PILImage)
    (hpart : req.hasImagePart = true) (hname : req.filename ≠ "")
    (hext : allowed_file req.filename = true)
    (hdec : decode req.imageBytes = .ok img) :
    (req.formType.getD "default" = "detailed" →
       upload_image req decode st env =
         (match generate_detailed_caption (toRGB img) st env with
          | (.error _, st1) =>
              ((500, .errorMsg "Failed to generate caption. Please try again."), st1)
          | (.ok caption, st1) => ((200, .success caption req.filename), st1))) ∧
    (req.formType.getD "default" ≠ "detailed" →
       upload_image req decode st env =
         (match generate_caption (toRGB img) st env with
          | (.error _, st1) =>
              ((500, .errorMsg "Failed to generate caption. Please try again."), st1)
          | (.ok caption, st1) => ((200, .success caption req.filename), st1))) ∧
    (req.formType = none → req.formType.getD "default" = "default") := by
  refine ⟨?_, ?_, ?_⟩
  · intro h4
    cases hG : generate_detailed_caption (toRGB img) st env with
    | mk r s1 => cases r <;> simp [upload_image, hpart, hname, hext, hdec, h4, hG]
  · intro h4
    cases hG : generate_caption (toRGB img) st env with
    | mk r s1 => cases r <;> simp [upload_image, hpart, hname, hext, hdec, h4, hG]
  · intro h
    rw [h]
    rfl

/-- Witness for C4: a concrete detailed-mode request, fully evaluated. -/
theorem upload_dispatch_witness :
    upload_image { sampleReq with formType := some "detailed" } okDecode initState
        (constEnv "a dog") =
      ((200, .success "a dog" "photo.png"), loadedState) :=
  ((upload_dispatch { sampleReq with formType := some "detailed" } okDecode initState
      (constEnv "a dog") { mode := "RGB" } rfl (by decide) (by decide) rfl).1 rfl).trans rfl

/-- The view itself only ever answers 200, 400 or 500. -/
theorem upload_status_mem (req : UploadRequest) (decode : List Nat → Except Unit PILImage)
    (st : MLState) (env : Env) :
    ((upload_image req decode st env).1).1 = 200 ∨
    ((upload_image req decode st env).1).1 = 400 ∨
    ((upload_image req decode st env).1).1 = 500 := by
  unfold upload_image
  by_cases h1 : req.hasImagePart = false
  · simp [h1]
  · by_cases h2 : req.filename = ""
    · simp [h1, h2]
    · by_cases h3 : allowed_file req.filename = false
      · simp [h1, h2, h3]
      · cases hd : decode req.imageBytes with
        | error e => simp [h1, h2, h3, hd]
        | ok img =>
          cases hG : (if req.formType.getD "default" = "detailed"
                      then generate_detailed_caption (toRGB img) st env
                      else generate_caption (toRGB img) st env) with
          | mk r s1 => cases r <;> simp [h1, h2, h3, hd, hG]

/-- C5: a request body over the 16 MiB cap is answered 413 with the
`File too large` body before the view runs; a request at or below the cap
goes to the view, which never answers 413. -/
theorem size_cap_enforcement
    (req : UploadRequest) (decode : List Nat → Except Unit PILImage)
    (st : MLState) (env : Env) :
    (req.contentLength > MAX_CONTENT_LENGTH →
       handle_upload req decode st env =
         ((413, .errorMsg "File too large. Maximum size is 16MB"), st)) ∧
    (req.contentLength ≤ MAX_CONTENT_LENGTH →
       handle_upload req decode st env = upload_image req decode st env ∧
       ((handle_upload req decode st env).1).1 ≠ 413) := by
  constructor
  · intro h
    simp [handle_upload, h, request_entity_too_large]
  · intro h
    have hn : ¬ req.contentLength > MAX_CONTENT_LENGTH := not_lt.mpr h
    have he : handle_upload req decode st env = upload_image req decode st env := by
      simp [handle_upload, hn]
    refine ⟨he, ?_⟩
    rw [he]
    rcases upload_status_mem req decode st env with h' | h' | h' <;> rw [h'] <;> decide

/-- Witness for C5: an oversized request is answered 413. -/
theorem size_cap_enforcement_witness :
    handle_upload { sampleReq with contentLength := 16 * 1024 * 1024 + 1 } okDecode
        initState (constEnv "c") =
      ((413, .errorMsg "File too large. Maximum size is 16MB"), initState) :=
  (size_cap_enforcement { sampleReq with contentLength := 16 * 1024 * 1024 + 1 } okDecode
      initState (constEnv "c")).1 (by decide)

/-- C6: the generation routine receives mode-dependent decoding parameters:
the default tier passes max_length 50, num_beams 4 and early_stopping true
(with neither do_sample nor repetition_penalty), while the detailed tier
passes max_length 70, num_beams 4, early_stopping true, do_sample false and
repetition_penalty 1.2 = 6/5. -/
theorem generation_params
    (st : MLState) (env : Env) (image : PILImage) (m p : Nat) (st1 : MLState)
    (hgm : get_model st env = (.ok (m, p), st1))
    (d : String) (st2 : MLState)
    (hgd : get_device st1 env.cudaAvailable = (d, st2)) :
    generate_caption image st env =
      (match env.generate m (env.inputsTo (env.process p image none) d)
          { max_length := 50, num_beams := 4, early_stopping := true,
            do_sample := none, repetition_penalty := none } with
       | .error e => (.error e, st2)
       | .ok out => (.ok (env.decodeTok p out), st2)) ∧
    generate_detailed_caption image st env =
      (match env.generate m
          (if d = "cuda"
           then env.inputsHalf (env.inputsTo (env.process p image (some detailedPromptText)) d)
           else env.inputsTo (env.process p image (some detailedPromptText)) d)
          { max_length := 70, num_beams := 4, early_stopping := true,
            do_sample := some false, repetition_penalty := some (6 / 5 : ℚ) } with
       | .error e => (.error e, st2)
       | .ok out => (.ok (cleanupDetailedCaption (env.decodeTok p out)), st2)) := by
  constructor
  · unfold generate_caption
    rw [hgm]
    simp [hgd]
  · unfold generate_detailed_caption
    rw [hgm]
    simp [hgd]

/-- Witness for C6: a concrete default-tier generation, fully evaluated. -/
theorem generation_params_witness :
    generate_caption { mode := "RGB" } initState (constEnv "cap") =
      (.ok "cap", loadedState) :=
  ((generation_params initState (constEnv "cap") { mode := "RGB" } 1 0 loadedState rfl
      "cpu" loadedState rfl).1).trans rfl

/-- C7: `get_device` answers cuda exactly when the accelerator was available
at the first call, cpu otherwise, caches that value in the module global, and
every later call returns the cached value whatever the availability flag then
is. -/
theorem get_device_caching :
    (∀ (st : MLState) (b : Bool), st._device = none →
       get_device st b = ((if b then "cuda" else "cpu"),
         { st with _device := some (if b then "cuda" else "cpu") })) ∧
    (∀ (st : MLState) (d : String) (b : Bool), st._device = some d →
       get_device st b = (d, st)) := by
  constructor
  · intro st b h
    simp [get_device, h]
  · intro st d b h
    simp [get_device, h]

/-- Witness for C7: first call caches cuda, a later call with availability
false still answers the cached cuda. -/
theorem get_device_caching_witness :
    get_device initState true = ("cuda", { initState with _device := some "cuda" }) ∧
    get_device { initState with _device := some "cuda" } false =
      ("cuda", { initState with _device := some "cuda" }) :=
  ⟨get_device_caching.1 initState true rfl,
   get_device_caching.2 { initState with _device := some "cuda" } "cuda" false rfl⟩

/-- C8: every successfully decoded image is normalized before captioning: the
handler hands `toRGB decoded` to the captioning call, `toRGB` always yields an
image whose mode is RGB, and it is the identity on images already in RGB. -/
theorem rgb_normalization
    (req : UploadRequest) (decode : List Nat → Except Unit PILImage)
    (st : MLState) (env : Env) (img : PILImage)
    (hpart : req.hasImagePart = true) (hname : req.filename ≠ "")
    (hext : allowed_file req.filename = true)
    (hdec : decode req.imageBytes = .ok img) :
    (toRGB img).mode = "RGB" ∧
    (img.mode = "RGB" → toRGB img = img) ∧
    upload_image req decode st env =
      (match (if req.formType.getD "default" = "detailed"
              then generate_detailed_caption (toRGB img) st env
              else generate_caption (toRGB img) st env) with
       | (.error _, st1) =>
           ((500, .errorMsg "Failed to generate caption. Please try again."), st1)
       | (.ok caption, st1) => ((200, .success caption req.filename), st1)) := by
  refine ⟨?_, ?_, ?_⟩
  · by_cases h : img.mode = "RGB" <;> simp [toRGB, PILImage.convert, h]
  · intro h
    simp [toRGB, h]
  · cases hG : (if req.formType.getD "default" = "detailed"
                then generate_detailed_caption (toRGB img) st env
                else generate_caption (toRGB img) st env) with
    | mk r s1 => cases r <;> simp [upload_image, hpart, hname, hext, hdec, hG]

/-- Witness for C8: a decoded RGB image stays in mode RGB. -/
theorem rgb_normalization_witness : (toRGB { mode := "RGB" }).mode = "RGB" :=
  (rgb_normalization sampleReq okDecode initState (constEnv "c") { mode := "RGB" }
    rfl (by decide) (by decide) rfl).1

/-- The two branches of the cleanup step of `generate_detailed_caption`. -/
theorem cleanup_cases (raw : String) :
    (startsWithStr (lowerStr raw) detailedPromptText = true →
      cleanupDetailedCaption raw = stripStr (dropStr raw (lenStr detailedPromptText))) ∧
    (startsWithStr (lowerStr raw) detailedPromptText = false →
      cleanupDetailedCaption raw = raw) := by
  constructor <;> intro h <;> simp [cleanupDetailedCaption, h]

/-- Counterexample to C9 as stated: when the decoded model output contains the
prompt twice in a row, the cleanup removes it only once and the returned
caption still begins with the prompt. -/
theorem detailed_caption_prompt_cex :
    (generate_detailed_caption { mode := "RGB" } initState
        (constEnv "a detailed description of a detailed description of a dog")).1 =
      .ok "a detailed description of a dog" ∧
    startsWithStr "a detailed description of a dog" detailedPromptText = true := by
  constructor
  · rfl
  · rfl

/-- C9 amended: every successful detailed caption is the cleanup of the text
the processor decoded from the generation output actually produced along the
executed path — the cleanup removes the prompt (matched case-insensitively)
at most once, dropping exactly the length of the prompt and stripping
surrounding whitespace, and returns the decoded text unchanged when it does
not start with the prompt; the result can therefore still begin with the
prompt when the decoded output contained it twice in a row. -/
theorem detailed_caption_cleanup
    (st : MLState) (env : Env) (image : PILImage) (c : String) (st1 : MLState)
    (h : generate_detailed_caption image st env = (.ok c, st1)) :
    ∃ m p stA d st2 out,
      get_model st env = (.ok (m, p), stA) ∧
      get_device stA env.cudaAvailable = (d, st2) ∧
      env.generate m
        (if d = "cuda"
         then env.inputsHalf (env.inputsTo (env.process p image (some detailedPromptText)) d)
         else env.inputsTo (env.process p image (some detailedPromptText)) d)
        { max_length := 70, num_beams := 4, early_stopping := true,
          do_sample := some false, repetition_penalty := some (6 / 5 : ℚ) } = .ok out ∧
      st1 = st2 ∧
      c = cleanupDetailedCaption (env.decodeTok p out) ∧
      (startsWithStr (lowerStr (env.decodeTok p out)) detailedPromptText = true →
        c = stripStr (dropStr (env.decodeTok p out) (lenStr detailedPromptText))) ∧
      (startsWithStr (lowerStr (env.decodeTok p out)) detailedPromptText = false →
        c = env.decodeTok p out) := by
  unfold generate_detailed_caption at h
  cases hgm : get_model st env with
  | mk r0 stA =>
    rw [hgm] at h
    cases r0 with
    | error e => simp at h
    | ok mp =>
      obtain ⟨m, p⟩ := mp
      dsimp only at h
      cases hgd : get_device stA env.cudaAvailable with
      | mk d st2 =>
        rw [hgd] at h
        dsimp only at h
        cases hge : env.generate m
            (if d = "cuda"
             then env.inputsHalf (env.inputsTo (env.process p image (some detailedPromptText)) d)
             else env.inputsTo (env.process p image (some detailedPromptText)) d)
            { max_length := 70, num_beams := 4, early_stopping := true,
              do_sample := some false, repetition_penalty := some (6 / 5 : ℚ) } with
        | error e => rw [hge] at h; simp at h
        | ok out =>
          rw [hge] at h
          simp only [Prod.mk.injEq, Except.ok.injEq] at h
          obtain ⟨hc, hst⟩ := h
          exact ⟨m, p, stA, d, st2, out, rfl, hgd, hge, hst.symm, hc.symm,
            fun hsw => hc.symm.trans ((cleanup_cases (env.decodeTok p out)).1 hsw),
            fun hsw => hc.symm.trans ((cleanup_cases (env.decodeTok p out)).2 hsw)⟩

/-- Witness for the amended C9 at a concrete generation. -/
theorem detailed_caption_cleanup_witness :
    ∃ m p stA d st2 out,
      get_model initState (constEnv "a dog") = (.ok (m, p), stA) ∧
      get_device stA (constEnv "a dog").cudaAvailable = (d, st2) ∧
      (constEnv "a dog").generate m
        (if d = "cuda"
         then (constEnv "a dog").inputsHalf ((constEnv "a dog").inputsTo
           ((constEnv "a dog").process p { mode := "RGB" } (some detailedPromptText)) d)
         else (constEnv "a dog").inputsTo
           ((constEnv "a dog").process p { mode := "RGB" } (some detailedPromptText)) d)
        { max_length := 70, num_beams := 4, early_stopping := true,
          do_sample := some false, repetition_penalty := some (6 / 5 : ℚ) } = .ok out ∧
      loadedState = st2 ∧
      "a dog" = cleanupDetailedCaption ((constEnv "a dog").decodeTok p out) ∧
      (startsWithStr (lowerStr ((constEnv "a dog").decodeTok p out)) detailedPromptText = true →
        "a dog" = stripStr (dropStr ((constEnv "a dog").decodeTok p out)
          (lenStr detailedPromptText))) ∧
      (startsWithStr (lowerStr ((constEnv "a dog").decodeTok p out)) detailedPromptText = false →
        "a dog" = (constEnv "a dog").decodeTok p out) :=
  detailed_caption_cleanup initState (constEnv "a dog") { mode := "RGB" } "a dog"
    loadedState rfl
